import Mathlib

/-!
Shallow embedding of the AIVehicleInspection repository:
the car repository (frontend/contexts/cars-context.tsx), the stage differ
(utils/reportComparison: compareStructuredReports), the analysis summary
(utils/geminiAnalysis: generateDamageReport), the report-screen photo
classification (frontend/app/report.tsx), and the photo-quality heuristics
(carDetection: detectCar and its sub-checks).
-/

namespace VehicleInspection

/-! ## Data model: cars-context.tsx -/

inductive CarStatus where
  | pending_photos
  | completed
  | analyzed
deriving DecidableEq, Repr

/-- `InspectionReport` from cars-context.tsx: stage number, timestamp,
results (a JSON string in the source, kept opaque here), optional comparison
text and the photo snapshot. -/
structure InspectionReport where
  stage : Nat
  timestamp : Nat
  results : String
  comparison : Option String
  photos : List String
deriving DecidableEq, Repr

/-- `Car` from cars-context.tsx. `analysisResults` and `reports` are optional
fields in the source type, modelled with `Option`. -/
structure Car where
  id : String
  make : String
  model : String
  registrationNumber : String
  photos : List String
  analysisResults : Option String
  reports : Option (List InspectionReport)
  status : CarStatus
deriving DecidableEq, Repr

/-- `addCar`: id is `Date.now().toString()`; the current time is an input
of the model. The new car is appended to the collection. -/
def addCar (now : Nat) (make model registrationNumber : String)
    (cars : List Car) : List Car :=
  cars ++ [{ id := Nat.repr now
           , make := make
           , model := model
           , registrationNumber := registrationNumber
           , photos := []
           , analysisResults := none
           , reports := some []
           , status := CarStatus.pending_photos }]

/-- `updateCarPhotos`: replaces `photos` and sets status `completed` on the
matching car. -/
def updateCarPhotos (id : String) (photos : List String)
    (cars : List Car) : List Car :=
  cars.map fun car =>
    if car.id = id then { car with photos := photos, status := CarStatus.completed }
    else car

/-- The per-car update performed by `saveAnalysis`. -/
def saveAnalysisCar (now : Nat) (id results : String) (car : Car) : Car :=
  if car.id = id then
    let existingReports := car.reports.getD []
    let nextStage := existingReports.length + 1
    let newReport : InspectionReport :=
      { stage := nextStage
      , timestamp := now
      , results := results
      , comparison := none
      , photos := car.photos }
    { car with analysisResults := some results
             , status := CarStatus.analyzed
             , reports := some (existingReports ++ [newReport]) }
  else car

/-- `saveAnalysis`: maps the per-car update over the collection; cars whose
id does not match are returned unchanged (no error is signalled). -/
def saveAnalysis (now : Nat) (id results : String) (cars : List Car) : List Car :=
  cars.map (saveAnalysisCar now id results)

/-- Replace the `comparison` field of the last report of a list
(the source copies the array and overwrites the last index). -/
def setLastComparison (comparison : String) :
    List InspectionReport → List InspectionReport
  | [] => []
  | [r] => [{ r with comparison := some comparison }]
  | r :: rest => r :: setLastComparison comparison rest

/-- `updateLatestReportComparison`: mutates the last report's comparison on
the matching car when it has at least one report; otherwise no-op. -/
def updateLatestReportComparison (id comparison : String)
    (cars : List Car) : List Car :=
  cars.map fun car =>
    match car.reports with
    | some rs =>
        if car.id = id ∧ rs.length > 0 then
          { car with reports := some (setLastComparison comparison rs) }
        else car
    | none => car

/-- `removeCar`: filters the matching car out. -/
def removeCar (id : String) (cars : List Car) : List Car :=
  cars.filter fun car => car.id ≠ id

/-- `clearAllCars`: empties the collection. -/
def clearAllCars (_cars : List Car) : List Car := []

/-- `getCar`: first car with the given id, if any. -/
def getCar (id : String) (cars : List Car) : Option Car :=
  cars.find? fun car => car.id = id

/-- One repository operation, with the wall clock modelled as an input. -/
inductive Op where
  | addCar (now : Nat) (make model registrationNumber : String)
  | updateCarPhotos (id : String) (photos : List String)
  | saveAnalysis (now : Nat) (id results : String)
  | updateLatestReportComparison (id comparison : String)
  | removeCar (id : String)
  | clearAllCars

def applyOp : Op → List Car → List Car
  | Op.addCar now mk md reg, cars => addCar now mk md reg cars
  | Op.updateCarPhotos id ps, cars => updateCarPhotos id ps cars
  | Op.saveAnalysis now id res, cars => saveAnalysis now id res cars
  | Op.updateLatestReportComparison id cmp, cars => updateLatestReportComparison id cmp cars
  | Op.removeCar id, cars => removeCar id cars
  | Op.clearAllCars, cars => clearAllCars cars

/-- States reachable from the empty collection by repository operations. -/
inductive Reachable : List Car → Prop where
  | empty : Reachable []
  | step : ∀ (s : List Car) (op : Op), Reachable s → Reachable (applyOp op s)

/-! ## Analysis results: utils/geminiAnalysis -/

inductive Severity where
  | none
  | minor
  | moderate
  | severe
deriving DecidableEq, Repr

/-- The severity value as the string literal used in the source. -/
def severityString : Severity → String
  | Severity.none => "none"
  | Severity.minor => "minor"
  | Severity.moderate => "moderate"
  | Severity.severe => "severe"

/-- `severityOrder` from `generateDamageReport`. -/
def severityOrder : Severity → Nat
  | Severity.none => 0
  | Severity.minor => 1
  | Severity.moderate => 2
  | Severity.severe => 3

/-- `GeminiAnalysisResult` from utils/geminiAnalysis. -/
structure GeminiAnalysisResult where
  hasDamage : Bool
  damageType : String
  severity : Severity
  description : String
  recommendations : List String
  imageComplete : Bool
  completenessNote : Option String
deriving DecidableEq, Repr

/-- JavaScript `Math.round` on a nonnegative rational. -/
def jsRound (q : ℚ) : ℤ := ⌊q + 1 / 2⌋

/-- `Object.keys(severityOrder).find(k => severityOrder[k] === rounded)`:
keys are iterated in insertion order none, minor, moderate, severe. -/
def severityFromOrder (v : ℤ) : Option String :=
  if v = 0 then some "none"
  else if v = 1 then some "minor"
  else if v = 2 then some "moderate"
  else if v = 3 then some "severe"
  else Option.none

structure DamageReportSummary where
  totalImages : Nat
  damageCount : Nat
  averageSeverity : String
  summary : String
deriving DecidableEq, Repr

/-- `generateDamageReport` from utils/geminiAnalysis: counts photos with
`hasDamage`, averages their severity ranks (float division modelled on ℚ,
`Math.round` as `jsRound`) and renders a summary line. -/
def generateDamageReport (results : List GeminiAnalysisResult) : DamageReportSummary :=
  let totalImages := results.length
  let damageCount := (results.filter (fun r => r.hasDamage)).length
  let severities := (results.filter (fun r => r.hasDamage)).map (fun r => r.severity)
  let averageSeverity :=
    if severities.length > 0 then
      match severityFromOrder
          (jsRound ((severities.map (fun s => (severityOrder s : ℚ))).sum
            / (severities.length : ℚ))) with
      | some k => k
      | Option.none => "minor"
    else "none"
  let summary :=
    if damageCount = 0 then "No damage detected in any photos"
    else "Damage detected in " ++ Nat.repr damageCount ++ "/" ++ Nat.repr totalImages
      ++ " photos. Average severity: " ++ averageSeverity
  { totalImages := totalImages
  , damageCount := damageCount
  , averageSeverity := averageSeverity
  , summary := summary }

/-! ## Report screen classification: frontend/app/report.tsx lines 87-89 -/

/-- `rejectedPhotos`: results whose image failed verification, with their
slot index (the source maps each result to `{...r, index: i}`). -/
def rejectedPhotos (results : List GeminiAnalysisResult) :
    List (Nat × GeminiAnalysisResult) :=
  results.enum.filter fun p => !p.2.imageComplete

/-- `damagedPhotos`: verified results with damage. -/
def damagedPhotos (results : List GeminiAnalysisResult) :
    List (Nat × GeminiAnalysisResult) :=
  results.enum.filter fun p => p.2.imageComplete && p.2.hasDamage

/-- `cleanPhotos`: verified results without damage. -/
def cleanPhotos (results : List GeminiAnalysisResult) :
    List (Nat × GeminiAnalysisResult) :=
  results.enum.filter fun p => p.2.imageComplete && !p.2.hasDamage

/-! ## Stage differ: compareStructuredReports -/

inductive CarAngle where
  | Front
  | Rear
  | Side
deriving DecidableEq, Repr

structure PhotoSlot where
  label : String
  expectedAngle : CarAngle
deriving DecidableEq, Repr

/-- `PHOTO_CONFIG` from carDetection. -/
def PHOTO_CONFIG : List PhotoSlot :=
  [ { label := "Front", expectedAngle := CarAngle.Front }
  , { label := "Back", expectedAngle := CarAngle.Rear }
  , { label := "Left Side", expectedAngle := CarAngle.Side }
  , { label := "Right Side", expectedAngle := CarAngle.Side }
  , { label := "Interior 1", expectedAngle := CarAngle.Front }
  , { label := "Interior 2", expectedAngle := CarAngle.Front }
  , { label := "Dashboard", expectedAngle := CarAngle.Front }
  , { label := "Engine", expectedAngle := CarAngle.Front }
  , { label := "Trunk", expectedAngle := CarAngle.Rear } ]

/-- The values stored in a `FieldChange`'s old/new slots: either JavaScript
`null` or a string (severity values are strings in the source). -/
inductive DiffValue where
  | null
  | str (s : String)
deriving DecidableEq, Repr

inductive ChangeType where
  | added
  | removed
  | changed
  | unchanged
deriving DecidableEq, Repr

structure FieldChange where
  field : String
  oldValue : DiffValue
  newValue : DiffValue
  type : ChangeType
deriving DecidableEq, Repr

structure AngleDiff where
  label : String
  index : Nat
  hasChanges : Bool
  changes : List FieldChange
deriving DecidableEq, Repr

structure StructuredDiffSummary where
  summary : String
  angles : List AngleDiff
  overallConfirm : Bool
deriving DecidableEq, Repr

/-- The four field comparisons of compareStructuredReports when a slot is
present in both reports, emitted in source order. -/
def compareFields (oldItem newItem : GeminiAnalysisResult) : List FieldChange :=
  (if oldItem.severity ≠ newItem.severity then
    [{ field := "Severity"
     , oldValue := DiffValue.str (severityString oldItem.severity)
     , newValue := DiffValue.str (severityString newItem.severity)
     , type := ChangeType.changed }]
   else [])
  ++ (if oldItem.damageType ≠ newItem.damageType then
    [{ field := "Damage Type"
     , oldValue := DiffValue.str oldItem.damageType
     , newValue := DiffValue.str newItem.damageType
     , type := ChangeType.changed }]
   else [])
  ++ (if oldItem.description ≠ newItem.description then
    [{ field := "Description"
     , oldValue := DiffValue.str oldItem.description
     , newValue := DiffValue.str newItem.description
     , type := ChangeType.changed }]
   else [])
  ++ (if oldItem.hasDamage ≠ newItem.hasDamage then
    [{ field := "Has Damage"
     , oldValue := DiffValue.str (if oldItem.hasDamage then "Yes" else "No")
     , newValue := DiffValue.str (if newItem.hasDamage then "Yes" else "No")
     , type := ChangeType.changed }]
   else [])

/-- The changes computed for slot `i` of the loop body: added / removed /
field comparison, depending on presence in each report. -/
def angleChangesAt (oldResults newResults : List GeminiAnalysisResult)
    (i : Nat) : List FieldChange :=
  match oldResults[i]?, newResults[i]? with
  | Option.none, some _ =>
      [{ field := "Record", oldValue := DiffValue.null
       , newValue := DiffValue.str "Present", type := ChangeType.added }]
  | some _, Option.none =>
      [{ field := "Record", oldValue := DiffValue.str "Present"
       , newValue := DiffValue.null, type := ChangeType.removed }]
  | some o, some n => compareFields o n
  | Option.none, Option.none => []

/-- `PHOTO_CONFIG[i]?.label || \x7bAngle i+1\x7d`. -/
def angleLabel (i : Nat) : String :=
  match PHOTO_CONFIG[i]? with
  | some slot => slot.label
  | Option.none => "Angle " ++ Nat.repr (i + 1)

/-- One `AngleDiff` entry as pushed by the loop body. -/
def angleDiffAt (oldResults newResults : List GeminiAnalysisResult)
    (i : Nat) : AngleDiff :=
  let changes := angleChangesAt oldResults newResults i
  { label := angleLabel i
  , index := i
  , hasChanges := decide (changes.length > 0)
  , changes := changes }

/-- The full per-slot list built by the loop (before the hasChanges filter). -/
def allAngleDiffs (oldResults newResults : List GeminiAnalysisResult) :
    List AngleDiff :=
  (List.range (max oldResults.length newResults.length)).map
    (angleDiffAt oldResults newResults)

/-- `compareStructuredReports` from utils/reportComparison. -/
def compareStructuredReports (oldResults newResults : List GeminiAnalysisResult) :
    StructuredDiffSummary :=
  let anglesDiff := allAngleDiffs oldResults newResults
  let differencesFound := anglesDiff.any (fun a => a.hasChanges)
  { summary :=
      if differencesFound then "Differences detected between reports."
      else "No significant structural differences."
  , angles := anglesDiff.filter (fun a => a.hasChanges)
  , overallConfirm := differencesFound }

/-! ## Photo-quality heuristics: carDetection (report.tsx lines 1179-1406)

The randomized sub-analyses are modelled as inputs: image metadata for
`analyzeImageQuality`, the detected angle for `detectAngle`, and the random
brightness / blur draws for `analyzeBrightness` / `analyzeBlur`. -/

inductive Resolution where
  | low
  | medium
  | high
deriving DecidableEq, Repr

structure ImageQualityAnalysis where
  isRealPhoto : Bool
  quality : ℤ
  resolution : Resolution
  hasContent : Bool
  sizeIndicator : String
deriving DecidableEq, Repr

/-- `analyzeImageQuality`, parameterized by the image metadata (the source
reads width, height and byte size from the file). The returned `quality` is
clamped to [40, 100]; `isRealPhoto` uses the unclamped value. -/
def analyzeImageQuality (width height size : Nat) : ImageQualityAnalysis :=
  let megapixels : ℚ := ((width * height : Nat) : ℚ) / 1000000
  let step1 : Resolution × ℤ × String × Bool :=
    if megapixels < 0.5 then (Resolution.low, 70 - 20, "too_small", false)
    else if megapixels > 20 then (Resolution.high, 70 + 10, "normal", true)
    else if megapixels > 2 then (Resolution.high, 70 + 5, "normal", true)
    else (Resolution.medium, 70, "normal", true)
  let resolution := step1.1
  let q1 := step1.2.1
  let step2 : ℤ × String × Bool :=
    if size < 20 then (q1 - 50, "too_small_file", false)
    else if size > 10000 then (q1 + 5, step1.2.2.1, step1.2.2.2)
    else if size > 200 ∧ size < 10000 then (q1 + 10, "typical", step1.2.2.2)
    else (q1, step1.2.2.1, step1.2.2.2)
  let quality := step2.1
  let hasContent := step2.2.2
  { isRealPhoto := hasContent && decide (quality > 40)
  , quality := min 100 (max 40 quality)
  , resolution := resolution
  , hasContent := hasContent
  , sizeIndicator := step2.2.1 }

structure BrightnessAnalysis where
  brightness : ℚ
  isTooDark : Bool
  isTooLight : Bool
deriving DecidableEq, Repr

/-- `analyzeBrightness`, with the simulated brightness draw as input. -/
def analyzeBrightness (brightness : ℚ) : BrightnessAnalysis :=
  { brightness := brightness
  , isTooDark := decide (brightness < 0.25)
  , isTooLight := decide (brightness > 0.85) }

structure BlurAnalysis where
  blur : ℚ
  isBlurry : Bool
deriving DecidableEq, Repr

/-- `analyzeBlur`, with the simulated blur draw as input. -/
def analyzeBlur (blur : ℚ) : BlurAnalysis :=
  { blur := blur, isBlurry := decide (blur > 0.7) }

structure FramingCheck where
  isOptimal : Bool
  hint : String
  score : Nat
deriving DecidableEq, Repr

structure LightingCheck where
  isOptimal : Bool
  hint : String
  score : Nat
  brightness : ℚ
  hasGlare : Bool
  hasShadows : Bool
deriving DecidableEq, Repr

structure QualityCheck where
  isOptimal : Bool
  hint : String
  score : Nat
  blur : ℚ
deriving DecidableEq, Repr

/-- `checkFraming` from report.tsx. -/
def checkFraming (qa : ImageQualityAnalysis) : FramingCheck :=
  if qa.resolution = Resolution.low then
    { isOptimal := false
    , hint := "Move closer to the car for better detail and clarity."
    , score := 10 }
  else if qa.quality < 50 then
    { isOptimal := false
    , hint := "Ensure the car fills most of the frame. Move closer."
    , score := 12 }
  else
    { isOptimal := true, hint := "Framing perfect.", score := 24 }

/-- `checkLighting` from report.tsx. -/
def checkLighting (ba : BrightnessAnalysis) : LightingCheck :=
  if ba.isTooDark then
    { isOptimal := false
    , hint := "Image is too dark. Move to brighter area with good light."
    , score := 8, brightness := ba.brightness, hasGlare := false, hasShadows := true }
  else if ba.isTooLight then
    { isOptimal := false
    , hint := "Too much glare/reflection. Move away from bright light."
    , score := 8, brightness := ba.brightness, hasGlare := true, hasShadows := false }
  else if ba.brightness < 0.4 then
    { isOptimal := false
    , hint := "Lighting too low. Take photo in daylight or well-lit area."
    , score := 12, brightness := ba.brightness, hasGlare := false, hasShadows := true }
  else if ba.brightness > 0.8 then
    { isOptimal := false
    , hint := "Too bright/overexposed. Reduce glare and shadows."
    , score := 12, brightness := ba.brightness, hasGlare := true, hasShadows := false }
  else
    { isOptimal := true, hint := "Lighting optimal."
    , score := 24, brightness := ba.brightness, hasGlare := false, hasShadows := false }

/-- `checkQuality` from report.tsx. -/
def checkQuality (bl : BlurAnalysis) (qa : ImageQualityAnalysis) : QualityCheck :=
  if bl.isBlurry then
    { isOptimal := false
    , hint := "Image is blurry. Hold camera steady and retake photo."
    , score := 5, blur := bl.blur }
  else if bl.blur > 0.5 then
    { isOptimal := false
    , hint := "Motion blur detected. Hold camera still when taking photo."
    , score := 10, blur := bl.blur }
  else if qa.quality < 45 then
    { isOptimal := false
    , hint := "Image quality too low. Use higher resolution camera."
    , score := 8, blur := bl.blur }
  else if qa.quality < 55 then
    { isOptimal := false
    , hint := "Image is not clear enough. This is not a car photo."
    , score := 12, blur := bl.blur }
  else
    { isOptimal := true, hint := "Image quality excellent.", score := 24, blur := bl.blur }

structure DetectionResult where
  carDetected : Bool
  angle : Option CarAngle
  angleScore : Nat
  framing : Option FramingCheck
  lighting : Option LightingCheck
  quality : Option QualityCheck
  totalScore : Nat
  isAccepted : Bool
  hint : String
deriving DecidableEq, Repr

def QUALITY_THRESHOLD : Nat := 65

/-- `angleNames` used by the wrong-angle hint. -/
def angleName : CarAngle → String
  | CarAngle.Front => "Front"
  | CarAngle.Rear => "Back/Rear"
  | CarAngle.Side => "Side"

/-- `detectCar` from report.tsx, on the happy path of its try-block
(the async sub-analyses never throw in this pure model). -/
def detectCar (qa : ImageQualityAnalysis) (detectedAngle : CarAngle)
    (expectedAngle : Option CarAngle) (ba : BrightnessAnalysis)
    (bl : BlurAnalysis) : DetectionResult :=
  if !qa.hasContent || decide (qa.quality < 60) then
    { carDetected := false, angle := Option.none, angleScore := 0
    , framing := Option.none, lighting := Option.none, quality := Option.none
    , totalScore := 0, isAccepted := false
    , hint := "Photo is too unclear or not a car. Please take a clear photo of the car." }
  else if (match expectedAngle with
           | some e => decide (detectedAngle ≠ e)
           | Option.none => false) then
    { carDetected := false, angle := Option.none, angleScore := 0
    , framing := Option.none, lighting := Option.none, quality := Option.none
    , totalScore := 0, isAccepted := false
    , hint := "Wrong angle! Expected "
        ++ (match expectedAngle with
            | some e => angleName e
            | Option.none => "")
        ++ ", but detected " ++ angleName detectedAngle
        ++ ". Please take a photo from the correct angle." }
  else
    let angleScore := 25
    let framing := checkFraming qa
    let lighting := checkLighting ba
    let quality := checkQuality bl qa
    let totalScore := angleScore + framing.score + lighting.score + quality.score
    let isAccepted := decide (totalScore ≥ QUALITY_THRESHOLD)
    let hint :=
      if !isAccepted then
        if !framing.isOptimal then framing.hint
        else if !lighting.isOptimal then lighting.hint
        else if !quality.isOptimal then quality.hint
        else "Photo quality is too low. Score: " ++ Nat.repr totalScore
          ++ "/100 (need " ++ Nat.repr QUALITY_THRESHOLD ++ "/100)"
      else "Perfect! Quality Score: " ++ Nat.repr totalScore ++ "/100"
    { carDetected := isAccepted, angle := some detectedAngle
    , angleScore := angleScore
    , framing := some framing, lighting := some lighting, quality := some quality
    , totalScore := totalScore, isAccepted := isAccepted, hint := hint }

/-! ## Decoding decimal strings: injectivity of the id allocation

`addCar` allocates `Date.now().toString()`, i.e. `Nat.repr now`. To reason
about id collisions we build a decoder and show it is a left inverse. -/

/-- Decimal value of a digit character. -/
def decodeDigit (c : Char) : Nat := c.toNat - Char.toNat '0'

/-- Decimal value of a digit string, most significant digit first. -/
def decodeDigits (l : List Char) : Nat :=
  l.foldl (fun a c => 10 * a + decodeDigit c) 0

/-- Append the decimal digits of `n` after the digits already accumulated
in `acc` (so `pushNum acc n` reads as the digits of `acc` followed by those
of `n`). -/
def pushNum (acc n : Nat) : Nat :=
  if h : n / 10 = 0 then 10 * acc + n
  else 10 * pushNum acc (n / 10) + n % 10
termination_by n
decreasing_by
  exact Nat.div_lt_self (Nat.pos_of_ne_zero fun hn => h (by simp [hn])) (by norm_num)

/-! ## Concrete values used to instantiate the theorems -/

/-- A collection state reached by create, analyze, then photo re-upload:
the car keeps its report history but has status `completed`. -/
def c1BadState : List Car :=
  applyOp (Op.updateCarPhotos "1" ["p1"])
    (applyOp (Op.saveAnalysis 2 "1" "res")
      (applyOp (Op.addCar 1 "Toyota" "Camry" "ABC123") []))

/-- The car of `c1BadState`, written out: completed status yet one report. -/
def c1BadCar : Car :=
  { id := "1", make := "Toyota", model := "Camry", registrationNumber := "ABC123"
  , photos := ["p1"], analysisResults := some "res"
  , reports := some [{ stage := 1, timestamp := 2, results := "res"
                     , comparison := Option.none, photos := [] }]
  , status := CarStatus.completed }

def c2Car : Car :=
  { id := "7", make := "Honda", model := "Civic", registrationNumber := "X9"
  , photos := ["p1", "p2"], analysisResults := Option.none
  , reports := some [], status := CarStatus.pending_photos }

def c7Car : Car :=
  { id := "1", make := "Kia", model := "Rio", registrationNumber := "Z2"
  , photos := [], analysisResults := Option.none
  , reports := some [], status := CarStatus.pending_photos }

/-- An analysis result that failed image verification yet reports damage. -/
def c6BadResult : GeminiAnalysisResult :=
  { hasDamage := true, damageType := "Dent", severity := Severity.severe
  , description := "dent", recommendations := [], imageComplete := false
  , completenessNote := some "wrong angle" }

/-- Two analysis results differing only in `hasDamage`. -/
def c3A : GeminiAnalysisResult :=
  { hasDamage := true, damageType := "Dent", severity := Severity.minor
  , description := "d", recommendations := [], imageComplete := true
  , completenessNote := Option.none }

def c3B : GeminiAnalysisResult :=
  { hasDamage := false, damageType := "Dent", severity := Severity.minor
  , description := "d", recommendations := [], imageComplete := true
  , completenessNote := Option.none }

/-- A state with one analyzed car, for the invariant witnesses. -/
def c10State : List Car :=
  applyOp (Op.saveAnalysis 2 "1" "resA")
    (applyOp (Op.addCar 1 "Toyota" "Camry" "ABC123") [])

/-- The single car of `c10State`, written out. -/
def c10Car : Car :=
  { id := "1", make := "Toyota", model := "Camry", registrationNumber := "ABC123"
  , photos := [], analysisResults := some "resA"
  , reports := some [{ stage := 1, timestamp := 2, results := "resA"
                     , comparison := Option.none, photos := [] }]
  , status := CarStatus.analyzed }

/-! ## Helper lemmas -/

theorem compareFields_self (a : GeminiAnalysisResult) : compareFields a a = [] := by
  simp [compareFields]

theorem angleChangesAt_self (x : List GeminiAnalysisResult) (i : Nat) :
    angleChangesAt x x i = [] := by
  unfold angleChangesAt
  cases h : x[i]? <;> simp [compareFields_self]

theorem angleChangesAt_both {oldResults newResults : List GeminiAnalysisResult}
    {i : Nat} {o n : GeminiAnalysisResult}
    (ho : oldResults[i]? = some o) (hn : newResults[i]? = some n) :
    angleChangesAt oldResults newResults i = compareFields o n := by
  unfold angleChangesAt
  rw [ho, hn]

theorem angleDiffAt_index (oldResults newResults : List GeminiAnalysisResult)
    (i : Nat) : (angleDiffAt oldResults newResults i).index = i := rfl

theorem angleDiffAt_changes (oldResults newResults : List GeminiAnalysisResult)
    (i : Nat) :
    (angleDiffAt oldResults newResults i).changes = angleChangesAt oldResults newResults i := rfl

theorem mem_angles_iff (oldResults newResults : List GeminiAnalysisResult)
    (a : AngleDiff) :
    a ∈ (compareStructuredReports oldResults newResults).angles ↔
      a ∈ allAngleDiffs oldResults newResults ∧ a.hasChanges = true := by
  simp [compareStructuredReports, List.mem_filter]

theorem mem_allAngleDiffs_iff (oldResults newResults : List GeminiAnalysisResult)
    (a : AngleDiff) :
    a ∈ allAngleDiffs oldResults newResults ↔
      ∃ i < max oldResults.length newResults.length,
        a = angleDiffAt oldResults newResults i := by
  simp [allAngleDiffs, List.mem_map, eq_comm]

theorem compareFields_mem (o n : GeminiAnalysisResult) :
    ∀ c ∈ compareFields o n, c.type = ChangeType.changed ∧
      (c.field = "Severity" ∨ c.field = "Damage Type" ∨
       c.field = "Description" ∨ c.field = "Has Damage") := by
  unfold compareFields
  split_ifs <;> intro c hc <;> simp_all <;> rcases hc with rfl | rfl | rfl | rfl <;> simp

theorem compareFields_countP_severity (o n : GeminiAnalysisResult) :
    (compareFields o n).countP (fun c => c.field == "Severity")
      = if o.severity = n.severity then 0 else 1 := by
  unfold compareFields
  split_ifs <;>
    simp_all [List.countP_append, List.countP_cons, List.countP_nil]

theorem compareFields_countP_damageType (o n : GeminiAnalysisResult) :
    (compareFields o n).countP (fun c => c.field == "Damage Type")
      = if o.damageType = n.damageType then 0 else 1 := by
  unfold compareFields
  split_ifs <;>
    simp_all [List.countP_append, List.countP_cons, List.countP_nil]

theorem compareFields_countP_description (o n : GeminiAnalysisResult) :
    (compareFields o n).countP (fun c => c.field == "Description")
      = if o.description = n.description then 0 else 1 := by
  unfold compareFields
  split_ifs <;>
    simp_all [List.countP_append, List.countP_cons, List.countP_nil]

theorem compareFields_countP_hasDamage (o n : GeminiAnalysisResult) :
    (compareFields o n).countP (fun c => c.field == "Has Damage")
      = if o.hasDamage = n.hasDamage then 0 else 1 := by
  unfold compareFields
  split_ifs <;>
    simp_all [List.countP_append, List.countP_cons, List.countP_nil]

theorem compareFields_hasDamage_vals (o n : GeminiAnalysisResult) :
    ∀ c ∈ compareFields o n, c.field = "Has Damage" →
      c.oldValue = DiffValue.str (if o.hasDamage then "Yes" else "No") ∧
      c.newValue = DiffValue.str (if n.hasDamage then "Yes" else "No") := by
  unfold compareFields
  split_ifs <;> intro c hc hf <;> simp_all <;>
    rcases hc with rfl | rfl | rfl | rfl <;> simp_all

/-! ## Claim theorems: stage differ -/

/-- Claim C3: for every pair of result arrays and every index present in
both, the differ emits one changed entry for each, and only each, of the
four fields severity, damageType, description, hasDamage whose values
differ under strict inequality, and the hasDamage change renders its
values as the strings Yes and No. -/
theorem stage_differ_field_changes (oldResults newResults : List GeminiAnalysisResult)
    (i : Nat) (o n : GeminiAnalysisResult)
    (ho : oldResults[i]? = some o) (hn : newResults[i]? = some n) :
    (∀ a ∈ (compareStructuredReports oldResults newResults).angles,
        a.index = i → a.changes = compareFields o n) ∧
    (compareFields o n ≠ [] →
        ∃ a ∈ (compareStructuredReports oldResults newResults).angles,
          a.index = i ∧ a.changes = compareFields o n) ∧
    (compareFields o n = [] →
        ∀ a ∈ (compareStructuredReports oldResults newResults).angles, a.index ≠ i) ∧
    (∀ c ∈ compareFields o n, c.type = ChangeType.changed ∧
        (c.field = "Severity" ∨ c.field = "Damage Type" ∨
         c.field = "Description" ∨ c.field = "Has Damage")) ∧
    ((compareFields o n).countP (fun c => c.field == "Severity")
        = if o.severity = n.severity then 0 else 1) ∧
    ((compareFields o n).countP (fun c => c.field == "Damage Type")
        = if o.damageType = n.damageType then 0 else 1) ∧
    ((compareFields o n).countP (fun c => c.field == "Description")
        = if o.description = n.description then 0 else 1) ∧
    ((compareFields o n).countP (fun c => c.field == "Has Damage")
        = if o.hasDamage = n.hasDamage then 0 else 1) ∧
    (∀ c ∈ compareFields o n, c.field = "Has Damage" →
        c.oldValue = DiffValue.str (if o.hasDamage then "Yes" else "No") ∧
        c.newValue = DiffValue.str (if n.hasDamage then "Yes" else "No")) := by
  have hi : i < max oldResults.length newResults.length :=
    lt_max_of_lt_left (List.getElem?_eq_some.mp ho).1
  have hch : angleChangesAt oldResults newResults i = compareFields o n :=
    angleChangesAt_both ho hn
  refine ⟨?_, ?_, ?_, compareFields_mem o n,
    compareFields_countP_severity o n, compareFields_countP_damageType o n,
    compareFields_countP_description o n, compareFields_countP_hasDamage o n,
    compareFields_hasDamage_vals o n⟩
  · intro a ha hidx
    obtain ⟨hmem, _⟩ := (mem_angles_iff _ _ a).mp ha
    obtain ⟨j, _, rfl⟩ := (mem_allAngleDiffs_iff _ _ a).mp hmem
    have : j = i := by simpa [angleDiffAt_index] using hidx
    subst this
    rw [angleDiffAt_changes, hch]
  · intro hne
    refine ⟨angleDiffAt oldResults newResults i, ?_, rfl, by rw [angleDiffAt_changes, hch]⟩
    refine (mem_angles_iff _ _ _).mpr ⟨(mem_allAngleDiffs_iff _ _ _).mpr ⟨i, hi, rfl⟩, ?_⟩
    simp only [angleDiffAt, hch]
    simpa using List.length_pos.mpr hne
  · intro hempty a ha hidx
    obtain ⟨hmem, hchg⟩ := (mem_angles_iff _ _ a).mp ha
    obtain ⟨j, _, rfl⟩ := (mem_allAngleDiffs_iff _ _ a).mp hmem
    have : j = i := by simpa [angleDiffAt_index] using hidx
    subst this
    simp only [angleDiffAt, hch, hempty] at hchg
    simp at hchg

/-- Witness for C3 at a concrete pair differing only in `hasDamage`. -/
theorem stage_differ_field_changes_witness :
    ([c3A][0]? = some c3A) ∧ ([c3B][0]? = some c3B) ∧
    (compareFields c3A c3B).countP (fun c => c.field == "Has Damage") = 1 := by
  refine ⟨rfl, rfl, ?_⟩
  have h := (stage_differ_field_changes [c3A] [c3B] 0 c3A c3B rfl rfl).2.2.2.2.2.2.2.1
  rw [h, if_neg (by decide)]

/-- Claim C4: the returned angles are exactly the per-slot entries with
hasChanges true; the summary is one of two fixed strings selected by
overallConfirm; and overallConfirm holds iff some slot had a change. -/
theorem stage_differ_output_shape (oldResults newResults : List GeminiAnalysisResult) :
    (∀ a, a ∈ (compareStructuredReports oldResults newResults).angles ↔
        a ∈ allAngleDiffs oldResults newResults ∧ a.hasChanges = true) ∧
    ((compareStructuredReports oldResults newResults).summary =
      if (compareStructuredReports oldResults newResults).overallConfirm
      then "Differences detected between reports."
      else "No significant structural differences.") ∧
    ((compareStructuredReports oldResults newResults).overallConfirm = true ↔
      ∃ a ∈ allAngleDiffs oldResults newResults, a.hasChanges = true) := by
  refine ⟨mem_angles_iff oldResults newResults, rfl, ?_⟩
  simp [compareStructuredReports, List.any_eq_true]

/-- Claim C5: diffing a well-formed result array against itself yields no
angles and overallConfirm false. -/
theorem stage_differ_self (x : List GeminiAnalysisResult) :
    (compareStructuredReports x x).angles = [] ∧
    (compareStructuredReports x x).overallConfirm = false := by
  have hall : ∀ a ∈ allAngleDiffs x x, a.hasChanges = false := by
    intro a ha
    obtain ⟨i, _, rfl⟩ := (mem_allAngleDiffs_iff _ _ a).mp ha
    simp [angleDiffAt, angleChangesAt_self]
  constructor
  · simp only [compareStructuredReports]
    refine List.filter_eq_nil_iff.mpr ?_
    intro a ha
    simp [hall a ha]
  · simp only [compareStructuredReports]
    refine List.any_eq_false.mpr ?_
    intro a ha
    simp [hall a ha]

/-! ## Helper lemmas: cars context -/

theorem setLastComparison_length (cmp : String) (rs : List InspectionReport) :
    (setLastComparison cmp rs).length = rs.length := by
  induction rs with
  | nil => rfl
  | cons r rest ih =>
    cases rest with
    | nil => rfl
    | cons r2 rest2 =>
      simp only [setLastComparison, List.length_cons]
      rw [ih]
      simp

theorem setLastComparison_getLast?_results (cmp : String) (rs : List InspectionReport) :
    ((setLastComparison cmp rs).getLast?).map (fun r => r.results) =
      (rs.getLast?).map (fun r => r.results) := by
  induction rs with
  | nil => rfl
  | cons r rest ih =>
    cases rest with
    | nil => simp [setLastComparison]
    | cons r2 rest2 =>
      simp only [setLastComparison]
      rcases e : setLastComparison cmp (r2 :: rest2) with _ | ⟨a, t⟩
      · have hlen := setLastComparison_length cmp (r2 :: rest2)
        rw [e] at hlen
        simp at hlen
      · rw [List.getLast?_cons_cons, List.getLast?_cons_cons]
        rw [e] at ih
        exact ih

/-! ## Claim theorems: cars context -/

/-- Counterexample for claim C1: after create, analyze, then a photo
re-upload, the car has a non-empty report history but status `completed`,
so `status == analyzed` iff `reports nonempty` fails on a reachable state. -/
theorem status_iff_reports_counterexample :
    Reachable c1BadState ∧ c1BadCar ∈ c1BadState ∧
    0 < (c1BadCar.reports.getD []).length ∧
    c1BadCar.status ≠ CarStatus.analyzed := by
  refine ⟨?_, by decide, by decide, by decide⟩
  exact Reachable.step _ _ (Reachable.step _ _ (Reachable.step _ _ Reachable.empty))

/-- Claim C1 (amended): on every reachable state, `status == analyzed`
implies the car has at least one report; the converse direction fails
because `updateCarPhotos` sets status `completed` without clearing reports. -/
theorem status_analyzed_imp_reports {s : List Car} (hs : Reachable s) :
    ∀ c ∈ s, c.status = CarStatus.analyzed → 0 < (c.reports.getD []).length := by
  induction hs with
  | empty => intro c hc; simp at hc
  | step s op _ ih =>
    intro c hc hstatus
    cases op with
    | addCar now mk md reg =>
      simp only [applyOp, addCar] at hc
      rcases List.mem_append.mp hc with h | h
      · exact ih c h hstatus
      · rw [List.mem_singleton] at h
        subst h
        simp at hstatus
    | updateCarPhotos id ps =>
      simp only [applyOp, updateCarPhotos, List.mem_map] at hc
      obtain ⟨c0, hc0, rfl⟩ := hc
      by_cases h : c0.id = id
      · rw [if_pos h] at hstatus
        simp at hstatus
      · rw [if_neg h] at hstatus ⊢
        exact ih c0 hc0 hstatus
    | saveAnalysis now id res =>
      simp only [applyOp, saveAnalysis, List.mem_map] at hc
      obtain ⟨c0, hc0, rfl⟩ := hc
      by_cases h : c0.id = id
      · simp [saveAnalysisCar, h]
      · simp only [saveAnalysisCar, if_neg h] at hstatus ⊢
        exact ih c0 hc0 hstatus
    | updateLatestReportComparison id cmp =>
      simp only [applyOp, updateLatestReportComparison, List.mem_map] at hc
      obtain ⟨c0, hc0, rfl⟩ := hc
      cases hrep : c0.reports with
      | none =>
        simp only [hrep] at hstatus ⊢
        have hres := ih c0 hc0 hstatus
        rwa [hrep] at hres
      | some rs0 =>
        simp only [hrep] at hstatus ⊢
        by_cases h : c0.id = id ∧ rs0.length > 0
        · rw [if_pos h]
          simp [setLastComparison_length, h.2]
        · rw [if_neg h] at hstatus ⊢
          exact ih c0 hc0 hstatus
    | removeCar id =>
      simp only [applyOp, removeCar] at hc
      exact ih c (List.mem_of_mem_filter hc) hstatus
    | clearAllCars =>
      simp [applyOp, clearAllCars] at hc

/-- Witness for the amended C1 at a concrete reachable state. -/
theorem status_analyzed_imp_reports_witness :
    0 < (c10Car.reports.getD []).length :=
  status_analyzed_imp_reports (s := c10State)
    (Reachable.step _ _ (Reachable.step _ _ Reachable.empty))
    c10Car (by decide) (by decide)

/-- Claim C2: for a car whose id matches, `saveAnalysis` appends exactly one
report with stage = previous count + 1, a snapshot of the current photos,
timestamp = call time, empty comparison, sets status analyzed and records
the results; previously existing reports are left unchanged (they form the
prefix of the new list), and the car keeps its position. -/
theorem saveAnalysis_appends_stage (now : Nat) (id results : String)
    (cars : List Car) (i : Nat) (c : Car)
    (hc : cars[i]? = some c) (hid : c.id = id) :
    (saveAnalysis now id results cars)[i]? = some
      { c with analysisResults := some results
             , status := CarStatus.analyzed
             , reports := some ((c.reports.getD []) ++
                 [{ stage := (c.reports.getD []).length + 1
                  , timestamp := now
                  , results := results
                  , comparison := Option.none
                  , photos := c.photos }]) } := by
  simp [saveAnalysis, List.getElem?_map, hc, saveAnalysisCar, hid]

/-- Witness for C2 at a concrete car. -/
theorem saveAnalysis_appends_stage_witness :
    (saveAnalysis 3 "7" "res" [c2Car])[0]? = some
      { c2Car with analysisResults := some "res"
                 , status := CarStatus.analyzed
                 , reports := some [{ stage := 1, timestamp := 3, results := "res"
                                    , comparison := Option.none
                                    , photos := ["p1", "p2"] }] } := by
  have h := saveAnalysis_appends_stage 3 "7" "res" [c2Car] 0 c2Car rfl rfl
  simpa [c2Car] using h

/-- Counterexample for claim C7: `saveAnalysis` with an id matching no car
completes silently with the collection unchanged; it has no error channel
and signals no NotFound to the caller. -/
theorem recordAnalysis_unknown_id_counterexample :
    c7Car.id ≠ "2" ∧ saveAnalysis 5 "2" "res" [c7Car] = [c7Car] := by
  constructor
  · decide
  · decide

/-- Claim C7 (amended): when no car matches the id, `saveAnalysis` is a
silent no-op — the collection is returned unchanged and no error is
signalled. -/
theorem recordAnalysis_unknown_id_noop (now : Nat) (id results : String)
    (cars : List Car) (h : ∀ c ∈ cars, c.id ≠ id) :
    saveAnalysis now id results cars = cars := by
  induction cars with
  | nil => rfl
  | cons c rest ih =>
    have hc : c.id ≠ id := h c (List.mem_cons_self c rest)
    have hrest : ∀ x ∈ rest, x.id ≠ id := fun x hx => h x (List.mem_cons_of_mem c hx)
    simp only [saveAnalysis, List.map_cons]
    rw [show saveAnalysisCar now id results c = c from by simp [saveAnalysisCar, hc]]
    have hr := ih hrest
    simp only [saveAnalysis] at hr
    rw [hr]

/-- Witness for the amended C7. -/
theorem recordAnalysis_unknown_id_noop_witness :
    saveAnalysis 9 "42" "zz" [c2Car, c7Car] = [c2Car, c7Car] :=
  recordAnalysis_unknown_id_noop 9 "42" "zz" [c2Car, c7Car] (by decide)

/-- Claim C10: on every reachable state, a car with a non-empty report list
has `analysisResults` equal to the results of its last report, so screens
reading `analysisResults` directly see the latest stage's results. -/
theorem analysisResults_matches_last_report {s : List Car} (hs : Reachable s) :
    ∀ c ∈ s, ∀ rs, c.reports = some rs → rs ≠ [] →
      c.analysisResults = (rs.getLast?).map (fun r => r.results) := by
  induction hs with
  | empty => intro c hc; simp at hc
  | step s op _ ih =>
    intro c hc rs hrs hne
    cases op with
    | addCar now mk md reg =>
      simp only [applyOp, addCar] at hc
      rcases List.mem_append.mp hc with h | h
      · exact ih c h rs hrs hne
      · rw [List.mem_singleton] at h
        subst h
        simp at hrs
        exact absurd hrs hne
    | updateCarPhotos id ps =>
      simp only [applyOp, updateCarPhotos, List.mem_map] at hc
      obtain ⟨c0, hc0, rfl⟩ := hc
      by_cases h : c0.id = id
      · rw [if_pos h] at hrs ⊢
        exact ih c0 hc0 rs hrs hne
      · rw [if_neg h] at hrs ⊢
        exact ih c0 hc0 rs hrs hne
    | saveAnalysis now id res =>
      simp only [applyOp, saveAnalysis, List.mem_map] at hc
      obtain ⟨c0, hc0, rfl⟩ := hc
      by_cases h : c0.id = id
      · simp only [saveAnalysisCar, if_pos h] at hrs ⊢
        have : (c0.reports.getD []) ++
            [{ stage := (c0.reports.getD []).length + 1, timestamp := now
             , results := res, comparison := Option.none
             , photos := c0.photos : InspectionReport }] = rs := by
          simpa using hrs
        subst this
        rw [List.getLast?_concat]
        rfl
      · simp only [saveAnalysisCar, if_neg h] at hrs ⊢
        exact ih c0 hc0 rs hrs hne
    | updateLatestReportComparison id cmp =>
      simp only [applyOp, updateLatestReportComparison, List.mem_map] at hc
      obtain ⟨c0, hc0, rfl⟩ := hc
      cases hrep : c0.reports with
      | none =>
        simp only [hrep] at hrs ⊢
        simp at hrs
      | some rs0 =>
        simp only [hrep] at hrs ⊢
        by_cases h : c0.id = id ∧ rs0.length > 0
        · rw [if_pos h] at hrs ⊢
          have hrs0 : setLastComparison cmp rs0 = rs := by simpa using hrs
          have hih := ih c0 hc0 rs0 hrep
            (by intro hnil; rw [hnil] at h; simp at h)
          subst hrs0
          rw [hih]
          exact (setLastComparison_getLast?_results cmp rs0).symm
        · rw [if_neg h] at hrs ⊢
          exact ih c0 hc0 rs hrs hne
    | removeCar id =>
      simp only [applyOp, removeCar] at hc
      exact ih c (List.mem_of_mem_filter hc) rs hrs hne
    | clearAllCars =>
      simp [applyOp, clearAllCars] at hc

/-- Witness for C10 at a concrete reachable state. -/
theorem analysisResults_matches_last_report_witness :
    c10Car.analysisResults =
      (([{ stage := 1, timestamp := 2, results := "resA"
         , comparison := Option.none, photos := [] }] :
          List InspectionReport).getLast?).map (fun r => r.results) :=
  analysisResults_matches_last_report (s := c10State)
    (Reachable.step _ _ (Reachable.step _ _ Reachable.empty))
    c10Car (by decide) _ rfl (by decide)

/-! ## Claim theorems: damage statistics (C6) -/

/-- Counterexample for claim C6: `generateDamageReport` filters only on
`hasDamage`, so a result that failed image verification but reports damage
is counted as damaged and dominates the severity aggregation. -/
theorem damage_stats_imageComplete_counterexample :
    c6BadResult.imageComplete = false ∧ c6BadResult.hasDamage = true ∧
    (generateDamageReport [c6BadResult]).damageCount = 1 ∧
    (generateDamageReport [c6BadResult]).averageSeverity = "severe" := by
  refine ⟨rfl, rfl, rfl, ?_⟩
  norm_num [generateDamageReport, c6BadResult, jsRound, severityFromOrder, severityOrder]

/-- Claim C6 (amended): the report screen's classification excludes
results with `imageComplete == false` from both the damaged and the clean
photo lists (they are listed as rejected instead); `generateDamageReport`,
by contrast, counts by `hasDamage` alone. -/
theorem damage_stats_imageComplete_amended (results : List GeminiAnalysisResult)
    (p : Nat × GeminiAnalysisResult) (h : p.2.imageComplete = false) :
    p ∉ damagedPhotos results ∧ p ∉ cleanPhotos results ∧
    (p ∈ results.enum → p ∈ rejectedPhotos results) ∧
    (generateDamageReport results).damageCount =
      (results.filter (fun r => r.hasDamage)).length := by
  refine ⟨?_, ?_, ?_, rfl⟩
  · intro hmem
    rw [damagedPhotos, List.mem_filter] at hmem
    simp [h] at hmem
  · intro hmem
    rw [cleanPhotos, List.mem_filter] at hmem
    simp [h] at hmem
  · intro hmem
    rw [rejectedPhotos, List.mem_filter]
    simp [h, hmem]

/-- Witness for the amended C6. -/
theorem damage_stats_imageComplete_amended_witness :
    (0, c6BadResult) ∉ damagedPhotos [c6BadResult] ∧
    (0, c6BadResult) ∉ cleanPhotos [c6BadResult] ∧
    (0, c6BadResult) ∈ rejectedPhotos [c6BadResult] := by
  have h := damage_stats_imageComplete_amended [c6BadResult] (0, c6BadResult) rfl
  exact ⟨h.1, h.2.1, h.2.2.1 (by decide)⟩

/-! ## Claim theorems: photo-quality heuristics (C8) -/

theorem checkFraming_score_le (qa : ImageQualityAnalysis) :
    (checkFraming qa).score ≤ 24 := by
  unfold checkFraming
  split_ifs <;> simp

theorem checkLighting_score_le (ba : BrightnessAnalysis) :
    (checkLighting ba).score ≤ 24 := by
  unfold checkLighting
  split_ifs <;> simp

theorem checkQuality_score_le (bl : BlurAnalysis) (qa : ImageQualityAnalysis) :
    (checkQuality bl qa).score ≤ 24 := by
  unfold checkQuality
  split_ifs <;> simp

/-- Claim C8: the detection score is the sum of a pass/fail 25-point angle
gate and framing, lighting, quality sub-scores each at most 25; the total
stays within [0, 100] (totalScore is a ℕ, so nonnegative by type) and the
photo is accepted iff the total reaches 65. -/
theorem detectCar_score_composition (qa : ImageQualityAnalysis)
    (da : CarAngle) (ea : Option CarAngle) (ba : BrightnessAnalysis)
    (bl : BlurAnalysis) :
    (detectCar qa da ea ba bl).totalScore ≤ 100 ∧
    ((detectCar qa da ea ba bl).isAccepted = true ↔
      65 ≤ (detectCar qa da ea ba bl).totalScore) ∧
    ((detectCar qa da ea ba bl).totalScore =
      (detectCar qa da ea ba bl).angleScore
        + (((detectCar qa da ea ba bl).framing.map (fun f => f.score)).getD 0)
        + (((detectCar qa da ea ba bl).lighting.map (fun l => l.score)).getD 0)
        + (((detectCar qa da ea ba bl).quality.map (fun q => q.score)).getD 0)) ∧
    ((detectCar qa da ea ba bl).angleScore = 0 ∨
      (detectCar qa da ea ba bl).angleScore = 25) ∧
    (((detectCar qa da ea ba bl).framing.map (fun f => f.score)).getD 0) ≤ 25 ∧
    (((detectCar qa da ea ba bl).lighting.map (fun l => l.score)).getD 0) ≤ 25 ∧
    (((detectCar qa da ea ba bl).quality.map (fun q => q.score)).getD 0) ≤ 25 := by
  have hf := checkFraming_score_le qa
  have hl := checkLighting_score_le ba
  have hq := checkQuality_score_le bl qa
  unfold detectCar
  split_ifs with h1 h2
  · exact ⟨by norm_num, by simp, rfl, Or.inl rfl, by norm_num, by norm_num, by norm_num⟩
  · exact ⟨by norm_num, by simp, rfl, Or.inl rfl, by norm_num, by norm_num, by norm_num⟩
  · refine ⟨by simp; omega, ?_, by simp, Or.inr rfl, by simpa using hf.trans (by norm_num),
      by simpa using hl.trans (by norm_num), by simpa using hq.trans (by norm_num)⟩
    simp [QUALITY_THRESHOLD]

/-! ## Claim theorems: id allocation (C9) -/

theorem decodeDigit_digitChar (d : Nat) (h : d < 10) :
    decodeDigit (Nat.digitChar d) = d := by
  interval_cases d <;> rfl

theorem pushNum_zero (n : Nat) : pushNum 0 n = n := by
  induction n using Nat.strong_induction_on with
  | _ n ih =>
    rw [pushNum]
    split_ifs with h
    · omega
    · have h10 : n / 10 < n :=
        Nat.div_lt_self (Nat.pos_of_ne_zero fun hn => h (by simp [hn])) (by norm_num)
      rw [ih _ h10]
      omega

theorem toDigitsCore_decode (fuel : Nat) : ∀ (n : Nat) (ds : List Char) (acc : Nat),
    n < fuel →
    List.foldl (fun a c => 10 * a + decodeDigit c) acc (Nat.toDigitsCore 10 fuel n ds)
      = List.foldl (fun a c => 10 * a + decodeDigit c) (pushNum acc n) ds := by
  induction fuel with
  | zero => intro n ds acc h; omega
  | succ fuel ih =>
    intro n ds acc h
    simp only [Nat.toDigitsCore]
    by_cases h0 : n / 10 = 0
    · rw [if_pos h0, List.foldl_cons]
      congr 1
      rw [decodeDigit_digitChar _ (Nat.mod_lt _ (by norm_num))]
      rw [pushNum, dif_pos h0]
      omega
    · rw [if_neg h0]
      have hlt : n / 10 < fuel := by
        have : n / 10 < n :=
          Nat.div_lt_self (Nat.pos_of_ne_zero fun hn => h0 (by simp [hn])) (by norm_num)
        omega
      rw [ih (n / 10) (Nat.digitChar (n % 10) :: ds) acc hlt, List.foldl_cons]
      congr 1
      rw [decodeDigit_digitChar _ (Nat.mod_lt _ (by norm_num))]
      conv_rhs => rw [pushNum]
      rw [dif_neg h0]

theorem decode_toDigits (n : Nat) : decodeDigits (Nat.toDigits 10 n) = n := by
  unfold decodeDigits Nat.toDigits
  rw [toDigitsCore_decode (n + 1) n [] 0 (Nat.lt_succ_self n)]
  simp [pushNum_zero]

theorem natRepr_injective : Function.Injective Nat.repr := by
  intro m n h
  have hlist : Nat.toDigits 10 m = Nat.toDigits 10 n := congrArg String.data h
  calc m = decodeDigits (Nat.toDigits 10 m) := (decode_toDigits m).symm
    _ = decodeDigits (Nat.toDigits 10 n) := by rw [hlist]
    _ = n := decode_toDigits n

/-- Counterexample for claim C9: two distinct create operations performed
at the same `Date.now()` millisecond allocate the same id. -/
theorem addCar_id_collision_counterexample :
    (addCar 5 "Honda" "Civic" "X1" (addCar 5 "Toyota" "Camry" "A1" [])).map Car.id
      = ["5", "5"] := by decide

/-- Claim C9 (amended): two create operations whose `Date.now()` values
differ allocate different ids; creates within the same millisecond collide. -/
theorem addCar_distinct_times_distinct_ids
    (t1 t2 : Nat) (h : t1 ≠ t2) (mk1 md1 rg1 mk2 md2 rg2 : String)
    (cars1 cars2 : List Car) :
    ((addCar t1 mk1 md1 rg1 cars1).getLast?).map Car.id ≠
      ((addCar t2 mk2 md2 rg2 cars2).getLast?).map Car.id := by
  intro hEq
  rw [addCar, addCar, List.getLast?_concat, List.getLast?_concat] at hEq
  exact h (natRepr_injective (by simpa using hEq))

/-- Witness for the amended C9. -/
theorem addCar_distinct_times_distinct_ids_witness :
    ((addCar 3 "a" "b" "c" []).getLast?).map Car.id ≠
      ((addCar 4 "d" "e" "f" []).getLast?).map Car.id :=
  addCar_distinct_times_distinct_ids 3 4 (by decide) "a" "b" "c" "d" "e" "f" [] []

end VehicleInspection
